import Mathlib

/-
  Verification development for the labadmin metadata-pulldown pipeline.

  Shallow embedding of:
  - knimin/lib/data_access.py   : `_explain_pulldown_failures`, `check_consent`,
                                  `addGeocodingInfo`
  - knimin/lib/redcap_interaction.py : `pulldown`, `_batch_grab`, `_geolocate`,
                                  `_format_human` (subset flags, external
                                  surveys), `_format_basic`

  Python dicts are modelled as a key set plus a valuation (`PyDict`), Python
  sets as `Finset String`, SQL result sets as filters over an explicit
  relational state (`AGDB`), and pandas frames as keyed row lists.
-/

/-- Model of a Python dict with string keys and values: a key set together
with a valuation.  `update` is `dict.update` (new entries win). -/
structure PyDict where
  keys : Finset String
  val : String → String

/-- Python `dict.get`-style lookup: `some` exactly on the key set. -/
def PyDict.lookup (d : PyDict) (b : String) : Option String :=
  if b ∈ d.keys then some (d.val b) else none

/-- The empty Python dict `{}`. -/
def PyDict.empty : PyDict := ⟨∅, fun _ => ""⟩

/-- Model of `d.update({bc: reason for bc in s})`: every key of `s` is bound
to `reason`; other keys keep their previous binding. -/
def PyDict.update (d : PyDict) (s : Finset String) (reason : String) : PyDict :=
  ⟨d.keys ∪ s, fun b => if b ∈ s then reason else d.val b⟩

theorem PyDict.keys_update (d : PyDict) (s : Finset String) (r : String) :
    (d.update s r).keys = d.keys ∪ s := rfl

theorem PyDict.lookup_update_of_mem (d : PyDict) (s : Finset String) (r : String)
    (b : String) (hb : b ∈ s) : (d.update s r).lookup b = some r := by
  simp [PyDict.update, PyDict.lookup, hb]

theorem PyDict.lookup_update_of_not_mem (d : PyDict) (s : Finset String) (r : String)
    (b : String) (hb : b ∉ s) : (d.update s r).lookup b = d.lookup b := by
  simp [PyDict.update, PyDict.lookup, hb]

theorem PyDict.lookup_eq_none_iff (d : PyDict) (b : String) :
    d.lookup b = none ↔ b ∉ d.keys := by
  unfold PyDict.lookup
  split <;> simp_all

theorem PyDict.lookup_empty (b : String) : PyDict.empty.lookup b = none := by
  simp [PyDict.empty, PyDict.lookup]

theorem PyDict.lookup_of_mem (d : PyDict) (b : String) (hb : b ∈ d.keys) :
    d.lookup b = some (d.val b) := by
  simp [PyDict.lookup, hb]

namespace DataAccess

/-- One row of the `ag.ag_kit_barcodes` table, restricted to the columns the
pulldown-failure classifier and `check_consent` read. -/
structure KitRow where
  withdrawn : Bool
  sample_date : Option String
  environment_sampled : Option String
  survey_id : Option String
deriving DecidableEq

/-- Relational state read by the classifier: the `ag.ag_kit_barcodes` rows
(keyed by barcode) and the `ag.ag_handout_barcodes` barcodes. -/
structure AGDB where
  ag_kit_barcodes : List (String × KitRow)
  ag_handout_barcodes : List String
deriving DecidableEq

/-- `SELECT barcode FROM ag.ag_kit_barcodes WHERE barcode IN s`:
membership of a barcode in the registered-kit table. -/
def inKit (db : AGDB) (b : String) : Bool :=
  db.ag_kit_barcodes.any (fun p => decide (p.1 = b))

/-- `SELECT barcode FROM ag.ag_handout_barcodes WHERE barcode IN s`:
membership of a barcode in the handout table. -/
def inHandout (db : AGDB) (b : String) : Bool :=
  db.ag_handout_barcodes.any (fun x => decide (x = b))

/-- `WHERE withdrawn = 'Y' AND barcode in s`. -/
def isWithdrawn (db : AGDB) (b : String) : Bool :=
  db.ag_kit_barcodes.any (fun p => decide (p.1 = b) && p.2.withdrawn)

/-- `WHERE sample_date IS NULL AND barcode in s`. -/
def noSampleDate (db : AGDB) (b : String) : Bool :=
  db.ag_kit_barcodes.any (fun p => decide (p.1 = b) && p.2.sample_date.isNone)

/-- `WHERE environment_sampled IS NOT NULL AND barcode in s`. -/
def isEnvironmental (db : AGDB) (b : String) : Bool :=
  db.ag_kit_barcodes.any (fun p => decide (p.1 = b) && p.2.environment_sampled.isSome)

/-- `WHERE survey_id IS NULL AND barcode in s`. -/
def noSurveyId (db : AGDB) (b : String) : Bool :=
  db.ag_kit_barcodes.any (fun p => decide (p.1 = b) && p.2.survey_id.isNone)

/-- `WHERE barcode in s AND survey_id IS NOT NULL` (the `check_consent`
query): the barcode has a non-null survey/consent linkage. -/
def surveyIdNotNull (db : AGDB) (b : String) : Bool :=
  db.ag_kit_barcodes.any (fun p => decide (p.1 = b) && p.2.survey_id.isSome)

/-- Helper closure of `_explain_pulldown_failures` (data_access.py 444-448):
bind `reason` to each barcode of `remaining` the query selects, then return
the updated failure dict and `remaining.difference(failures)`. -/
def update_reason_and_remaining (q : String → Bool) (reason : String)
    (failures : PyDict) (remaining : Finset String) : PyDict × Finset String :=
  let failures := failures.update (remaining.filter (fun b => q b = true)) reason
  (failures, remaining \ failures.keys)

/-- Last check of `_explain_pulldown_failures` (data_access.py 516-524):
return early if nothing is unexplained, else everything still remaining
gets the catch-all reason. -/
def explainAfterConsent (st : PyDict × Finset String) : PyDict :=
  if st.2 = ∅ then st.1 else st.1.update st.2 "Unknown reason"

/-- Stage of `_explain_pulldown_failures` after the environmental-sample
check (data_access.py 508-520): the consent query. -/
def explainAfterEnv (db : AGDB) (st : PyDict × Finset String) : PyDict :=
  if st.2 = ∅ then st.1
  else explainAfterConsent
    (update_reason_and_remaining (fun b => noSurveyId db b)
      "Sample logged without consent" st.1 st.2)

/-- Stage after the sample-not-logged check (data_access.py 498-510):
the environmental-sample query. -/
def explainAfterNotLogged (db : AGDB) (st : PyDict × Finset String) : PyDict :=
  if st.2 = ∅ then st.1
  else explainAfterEnv db
    (update_reason_and_remaining (fun b => isEnvironmental db b)
      "Environmental sample" st.1 st.2)

/-- Stage after the withdrawn check (data_access.py 488-500):
the sample-not-logged query. -/
def explainAfterWithdrawn (db : AGDB) (st : PyDict × Finset String) : PyDict :=
  if st.2 = ∅ then st.1
  else explainAfterNotLogged db
    (update_reason_and_remaining (fun b => noSampleDate db b)
      "Sample not logged" st.1 st.2)

/-- Stage after the handout check (data_access.py 478-490):
the withdrawn query. -/
def explainAfterHandout (db : AGDB) (st : PyDict × Finset String) : PyDict :=
  if st.2 = ∅ then st.1
  else explainAfterWithdrawn db
    (update_reason_and_remaining (fun b => isWithdrawn db b)
      "Withdrawn sample" st.1 st.2)

/-- Stage after the not-an-AG-barcode check (data_access.py 468-480):
the unassigned-handout query. -/
def explainAfterNotAG (db : AGDB) (st : PyDict × Finset String) : PyDict :=
  if st.2 = ∅ then st.1
  else explainAfterHandout db
    (update_reason_and_remaining (fun b => inHandout db b)
      "Unassigned handout kit barcode" st.1 st.2)

/-- `DataAccess._explain_pulldown_failures` (data_access.py 364-461 region,
lines 438-524): ordered elimination producing one failure reason per
barcode.  Empty input short-circuits; the first stage keeps the barcodes
recognised by the kit-or-handout union query and brands the rest
`"Not an AG barcode"`; the later stages run via the stage functions above. -/
def explainPulldownFailures (db : AGDB) (barcodes : Finset String) : PyDict :=
  if barcodes = ∅ then PyDict.empty
  else
    let hold := barcodes.filter (fun b => (inKit db b || inHandout db b) = true)
    let fail_reason := PyDict.empty.update (barcodes \ hold) "Not an AG barcode"
    explainAfterNotAG db (fail_reason, hold)

/-- Characterisation written from the claim (spec 4.1): the reason of the
first failing predicate in the fixed precedence order. -/
def classifyReasonSpec (db : AGDB) (b : String) : String :=
  if (inKit db b || inHandout db b) = false then "Not an AG barcode"
  else if inHandout db b = true then "Unassigned handout kit barcode"
  else if isWithdrawn db b = true then "Withdrawn sample"
  else if noSampleDate db b = true then "Sample not logged"
  else if isEnvironmental db b = true then "Environmental sample"
  else if noSurveyId db b = true then "Sample logged without consent"
  else "Unknown reason"

/-- How many of the six disqualifying predicates of spec 4.1 hold of `b`. -/
def disqualifyingCount (db : AGDB) (b : String) : ℕ :=
  [!(inKit db b || inHandout db b), inHandout db b, isWithdrawn db b,
   noSampleDate db b, isEnvironmental db b, noSurveyId db b].count true

end DataAccess

namespace DataAccess

theorem urr_lookup_of_match (q : String → Bool) (r : String) (d : PyDict)
    (rem : Finset String) (b : String) (hb : b ∈ rem) (hq : q b = true) :
    (update_reason_and_remaining q r d rem).1.lookup b = some r ∧
    b ∉ (update_reason_and_remaining q r d rem).2 := by
  have hf : b ∈ rem.filter (fun x => q x = true) := Finset.mem_filter.mpr ⟨hb, hq⟩
  unfold update_reason_and_remaining
  refine ⟨PyDict.lookup_update_of_mem _ _ _ _ hf, ?_⟩
  simp only [Finset.mem_sdiff, PyDict.keys_update, Finset.mem_union, not_and, not_not]
  exact fun _ => Or.inr hf

theorem urr_lookup_of_no_match (q : String → Bool) (r : String) (d : PyDict)
    (rem : Finset String) (b : String) (hb : b ∈ rem) (hk : b ∉ d.keys)
    (hq : q b = false) :
    (update_reason_and_remaining q r d rem).1.lookup b = none ∧
    b ∈ (update_reason_and_remaining q r d rem).2 ∧
    b ∉ (update_reason_and_remaining q r d rem).1.keys := by
  have hf : b ∉ rem.filter (fun x => q x = true) := by
    simp [Finset.mem_filter, hq]
  have hk' : b ∉ (d.update (rem.filter (fun x => q x = true)) r).keys := by
    simp only [PyDict.keys_update, Finset.mem_union, not_or]
    exact ⟨hk, hf⟩
  unfold update_reason_and_remaining
  refine ⟨?_, Finset.mem_sdiff.mpr ⟨hb, hk'⟩, hk'⟩
  simp [PyDict.lookup, hk']

theorem urr_lookup_of_not_remaining (q : String → Bool) (r : String) (d : PyDict)
    (rem : Finset String) (b : String) (hb : b ∉ rem) :
    (update_reason_and_remaining q r d rem).1.lookup b = d.lookup b ∧
    b ∉ (update_reason_and_remaining q r d rem).2 := by
  have hf : b ∉ rem.filter (fun x => q x = true) :=
    fun h => hb (Finset.mem_filter.mp h).1
  unfold update_reason_and_remaining
  exact ⟨PyDict.lookup_update_of_not_mem _ _ _ _ hf,
    fun h => hb (Finset.mem_sdiff.mp h).1⟩

theorem explainAfterConsent_of_not_mem (st : PyDict × Finset String) (b : String)
    (hb : b ∉ st.2) : (explainAfterConsent st).lookup b = st.1.lookup b := by
  unfold explainAfterConsent
  split
  · rfl
  · exact PyDict.lookup_update_of_not_mem _ _ _ _ hb

theorem explainAfterConsent_of_mem (st : PyDict × Finset String) (b : String)
    (hb : b ∈ st.2) : (explainAfterConsent st).lookup b = some "Unknown reason" := by
  unfold explainAfterConsent
  split
  · next h => rw [h] at hb; exact absurd hb (Finset.not_mem_empty b)
  · exact PyDict.lookup_update_of_mem _ _ _ _ hb

theorem explainAfterEnv_of_not_mem (db : AGDB) (st : PyDict × Finset String)
    (b : String) (hb : b ∉ st.2) :
    (explainAfterEnv db st).lookup b = st.1.lookup b := by
  unfold explainAfterEnv
  split
  · rfl
  · obtain ⟨h1, h2⟩ := urr_lookup_of_not_remaining (fun x => noSurveyId db x)
      "Sample logged without consent" st.1 st.2 b hb
    rw [explainAfterConsent_of_not_mem _ _ h2, h1]

theorem explainAfterEnv_of_mem (db : AGDB) (st : PyDict × Finset String)
    (b : String) (hb : b ∈ st.2) (hk : b ∉ st.1.keys) :
    (explainAfterEnv db st).lookup b =
      some (if noSurveyId db b = true then "Sample logged without consent"
        else "Unknown reason") := by
  unfold explainAfterEnv
  split
  · next h => rw [h] at hb; exact absurd hb (Finset.not_mem_empty b)
  · cases hq : noSurveyId db b with
    | true =>
        obtain ⟨h1, h2⟩ := urr_lookup_of_match (fun x => noSurveyId db x)
          "Sample logged without consent" st.1 st.2 b hb hq
        rw [explainAfterConsent_of_not_mem _ _ h2, h1]
        simp
    | false =>
        obtain ⟨_, h2, _⟩ := urr_lookup_of_no_match (fun x => noSurveyId db x)
          "Sample logged without consent" st.1 st.2 b hb hk hq
        rw [explainAfterConsent_of_mem _ _ h2]
        simp

theorem explainAfterNotLogged_of_not_mem (db : AGDB) (st : PyDict × Finset String)
    (b : String) (hb : b ∉ st.2) :
    (explainAfterNotLogged db st).lookup b = st.1.lookup b := by
  unfold explainAfterNotLogged
  split
  · rfl
  · obtain ⟨h1, h2⟩ := urr_lookup_of_not_remaining (fun x => isEnvironmental db x)
      "Environmental sample" st.1 st.2 b hb
    rw [explainAfterEnv_of_not_mem _ _ _ h2, h1]

theorem explainAfterNotLogged_of_mem (db : AGDB) (st : PyDict × Finset String)
    (b : String) (hb : b ∈ st.2) (hk : b ∉ st.1.keys) :
    (explainAfterNotLogged db st).lookup b =
      some (if isEnvironmental db b = true then "Environmental sample"
        else if noSurveyId db b = true then "Sample logged without consent"
        else "Unknown reason") := by
  unfold explainAfterNotLogged
  split
  · next h => rw [h] at hb; exact absurd hb (Finset.not_mem_empty b)
  · cases hq : isEnvironmental db b with
    | true =>
        obtain ⟨h1, h2⟩ := urr_lookup_of_match (fun x => isEnvironmental db x)
          "Environmental sample" st.1 st.2 b hb hq
        rw [explainAfterEnv_of_not_mem _ _ _ h2, h1]
        simp
    | false =>
        obtain ⟨_, h2, h3⟩ := urr_lookup_of_no_match (fun x => isEnvironmental db x)
          "Environmental sample" st.1 st.2 b hb hk hq
        rw [explainAfterEnv_of_mem _ _ _ h2 h3]
        simp

theorem explainAfterWithdrawn_of_not_mem (db : AGDB) (st : PyDict × Finset String)
    (b : String) (hb : b ∉ st.2) :
    (explainAfterWithdrawn db st).lookup b = st.1.lookup b := by
  unfold explainAfterWithdrawn
  split
  · rfl
  · obtain ⟨h1, h2⟩ := urr_lookup_of_not_remaining (fun x => noSampleDate db x)
      "Sample not logged" st.1 st.2 b hb
    rw [explainAfterNotLogged_of_not_mem _ _ _ h2, h1]

theorem explainAfterWithdrawn_of_mem (db : AGDB) (st : PyDict × Finset String)
    (b : String) (hb : b ∈ st.2) (hk : b ∉ st.1.keys) :
    (explainAfterWithdrawn db st).lookup b =
      some (if noSampleDate db b = true then "Sample not logged"
        else if isEnvironmental db b = true then "Environmental sample"
        else if noSurveyId db b = true then "Sample logged without consent"
        else "Unknown reason") := by
  unfold explainAfterWithdrawn
  split
  · next h => rw [h] at hb; exact absurd hb (Finset.not_mem_empty b)
  · cases hq : noSampleDate db b with
    | true =>
        obtain ⟨h1, h2⟩ := urr_lookup_of_match (fun x => noSampleDate db x)
          "Sample not logged" st.1 st.2 b hb hq
        rw [explainAfterNotLogged_of_not_mem _ _ _ h2, h1]
        simp
    | false =>
        obtain ⟨_, h2, h3⟩ := urr_lookup_of_no_match (fun x => noSampleDate db x)
          "Sample not logged" st.1 st.2 b hb hk hq
        rw [explainAfterNotLogged_of_mem _ _ _ h2 h3]
        simp

theorem explainAfterHandout_of_not_mem (db : AGDB) (st : PyDict × Finset String)
    (b : String) (hb : b ∉ st.2) :
    (explainAfterHandout db st).lookup b = st.1.lookup b := by
  unfold explainAfterHandout
  split
  · rfl
  · obtain ⟨h1, h2⟩ := urr_lookup_of_not_remaining (fun x => isWithdrawn db x)
      "Withdrawn sample" st.1 st.2 b hb
    rw [explainAfterWithdrawn_of_not_mem _ _ _ h2, h1]

theorem explainAfterHandout_of_mem (db : AGDB) (st : PyDict × Finset String)
    (b : String) (hb : b ∈ st.2) (hk : b ∉ st.1.keys) :
    (explainAfterHandout db st).lookup b =
      some (if isWithdrawn db b = true then "Withdrawn sample"
        else if noSampleDate db b = true then "Sample not logged"
        else if isEnvironmental db b = true then "Environmental sample"
        else if noSurveyId db b = true then "Sample logged without consent"
        else "Unknown reason") := by
  unfold explainAfterHandout
  split
  · next h => rw [h] at hb; exact absurd hb (Finset.not_mem_empty b)
  · cases hq : isWithdrawn db b with
    | true =>
        obtain ⟨h1, h2⟩ := urr_lookup_of_match (fun x => isWithdrawn db x)
          "Withdrawn sample" st.1 st.2 b hb hq
        rw [explainAfterWithdrawn_of_not_mem _ _ _ h2, h1]
        simp
    | false =>
        obtain ⟨_, h2, h3⟩ := urr_lookup_of_no_match (fun x => isWithdrawn db x)
          "Withdrawn sample" st.1 st.2 b hb hk hq
        rw [explainAfterWithdrawn_of_mem _ _ _ h2 h3]
        simp

theorem explainAfterNotAG_of_not_mem (db : AGDB) (st : PyDict × Finset String)
    (b : String) (hb : b ∉ st.2) :
    (explainAfterNotAG db st).lookup b = st.1.lookup b := by
  unfold explainAfterNotAG
  split
  · rfl
  · obtain ⟨h1, h2⟩ := urr_lookup_of_not_remaining (fun x => inHandout db x)
      "Unassigned handout kit barcode" st.1 st.2 b hb
    rw [explainAfterHandout_of_not_mem _ _ _ h2, h1]

theorem explainAfterNotAG_of_mem (db : AGDB) (st : PyDict × Finset String)
    (b : String) (hb : b ∈ st.2) (hk : b ∉ st.1.keys) :
    (explainAfterNotAG db st).lookup b =
      some (if inHandout db b = true then "Unassigned handout kit barcode"
        else if isWithdrawn db b = true then "Withdrawn sample"
        else if noSampleDate db b = true then "Sample not logged"
        else if isEnvironmental db b = true then "Environmental sample"
        else if noSurveyId db b = true then "Sample logged without consent"
        else "Unknown reason") := by
  unfold explainAfterNotAG
  split
  · next h => rw [h] at hb; exact absurd hb (Finset.not_mem_empty b)
  · cases hq : inHandout db b with
    | true =>
        obtain ⟨h1, h2⟩ := urr_lookup_of_match (fun x => inHandout db x)
          "Unassigned handout kit barcode" st.1 st.2 b hb hq
        rw [explainAfterHandout_of_not_mem _ _ _ h2, h1]
        simp
    | false =>
        obtain ⟨_, h2, h3⟩ := urr_lookup_of_no_match (fun x => inHandout db x)
          "Unassigned handout kit barcode" st.1 st.2 b hb hk hq
        rw [explainAfterHandout_of_mem _ _ _ h2 h3]
        simp

end DataAccess

namespace DataAccess

theorem explain_lookup_of_mem (db : AGDB) (barcodes : Finset String) (b : String)
    (hb : b ∈ barcodes) :
    (explainPulldownFailures db barcodes).lookup b = some (classifyReasonSpec db b) := by
  have hne : barcodes ≠ ∅ := Finset.ne_empty_of_mem hb
  unfold explainPulldownFailures
  rw [if_neg hne]
  dsimp only
  cases hrec : (inKit db b || inHandout db b) with
  | true =>
      have hbhold : b ∈ barcodes.filter (fun x => (inKit db x || inHandout db x) = true) :=
        Finset.mem_filter.mpr ⟨hb, hrec⟩
      have hk : b ∉ (PyDict.empty.update
          (barcodes \ barcodes.filter (fun x => (inKit db x || inHandout db x) = true))
          "Not an AG barcode").keys := by
        simp only [PyDict.keys_update, PyDict.empty, Finset.mem_union, Finset.mem_sdiff,
          Finset.not_mem_empty, false_or, not_and, not_not]
        exact fun _ => hbhold
      rw [explainAfterNotAG_of_mem db _ b hbhold hk]
      simp [classifyReasonSpec, hrec]
  | false =>
      have hnothold : b ∉ barcodes.filter (fun x => (inKit db x || inHandout db x) = true) := by
        intro hmem
        obtain ⟨-, h⟩ := Finset.mem_filter.mp hmem
        simp [hrec] at h
      have hmem : b ∈ barcodes \ barcodes.filter (fun x => (inKit db x || inHandout db x) = true) :=
        Finset.mem_sdiff.mpr ⟨hb, hnothold⟩
      rw [explainAfterNotAG_of_not_mem db _ b hnothold,
        PyDict.lookup_update_of_mem _ _ _ _ hmem]
      unfold classifyReasonSpec
      rw [if_pos hrec]

theorem explain_lookup_of_not_mem (db : AGDB) (barcodes : Finset String) (b : String)
    (hb : b ∉ barcodes) :
    (explainPulldownFailures db barcodes).lookup b = none := by
  by_cases hne : barcodes = ∅
  · unfold explainPulldownFailures
    rw [if_pos hne]
    exact PyDict.lookup_empty b
  · unfold explainPulldownFailures
    rw [if_neg hne]
    dsimp only
    have hnothold : b ∉ barcodes.filter (fun x => (inKit db x || inHandout db x) = true) :=
      fun h => hb (Finset.mem_filter.mp h).1
    have hnot2 : b ∉ barcodes \ barcodes.filter (fun x => (inKit db x || inHandout db x) = true) :=
      fun h => hb (Finset.mem_sdiff.mp h).1
    rw [explainAfterNotAG_of_not_mem db _ b hnothold,
      PyDict.lookup_update_of_not_mem _ _ _ _ hnot2]
    exact PyDict.lookup_empty b

/-- Totality of the classifier: the failure dict binds exactly the input
barcodes. -/
theorem explain_keys (db : AGDB) (barcodes : Finset String) :
    (explainPulldownFailures db barcodes).keys = barcodes := by
  ext b
  constructor
  · intro h
    by_contra hb
    have hnone := explain_lookup_of_not_mem db barcodes b hb
    rw [PyDict.lookup_eq_none_iff] at hnone
    exact hnone h
  · intro hb
    by_contra hk
    have hsome := explain_lookup_of_mem db barcodes b hb
    simp [PyDict.lookup, hk] at hsome

/-- C2: for barcodes satisfying two or more disqualifying predicates, the
classifier assigns exactly one reason, namely the reason of the first
failing predicate in the fixed precedence order (Not an AG barcode,
Unassigned handout kit barcode, Withdrawn sample, Sample not logged,
Environmental sample, Sample logged without consent, Unknown reason). -/
theorem c2_classifier_precedence (db : AGDB) (barcodes : Finset String) (b : String)
    (hb : b ∈ barcodes) (_hmulti : 2 ≤ disqualifyingCount db b) :
    (explainPulldownFailures db barcodes).lookup b = some (classifyReasonSpec db b) :=
  explain_lookup_of_mem db barcodes b hb

/-- Concrete database for the C2 witness: one registered barcode that is
simultaneously withdrawn, without a sample date, and without a survey id. -/
def c2db : AGDB := ⟨[("000000001", ⟨true, none, none, none⟩)], []⟩

/-- Witness for C2: a barcode that is both withdrawn and not logged is
reported with the higher-precedence reason `"Withdrawn sample"`. -/
theorem c2_classifier_precedence_witness :
    ("000000001" : String) ∈ ({"000000001"} : Finset String) ∧
    2 ≤ disqualifyingCount c2db "000000001" ∧
    (explainPulldownFailures c2db {"000000001"}).lookup "000000001" =
      some (classifyReasonSpec c2db "000000001") ∧
    classifyReasonSpec c2db "000000001" = "Withdrawn sample" :=
  ⟨by decide, by decide,
   c2_classifier_precedence c2db {"000000001"} "000000001" (by decide) (by decide),
   by decide⟩

/-- `DataAccess.check_consent` (data_access.py 338-362).  The consented
query `WHERE barcode in %s AND survey_id IS NOT NULL` is run unguarded:
with an empty barcode set psycopg2 renders `IN ()`, which the server
rejects, and `SQLHandler._sql_executor` re-raises a `ValueError` (the
error branch).  Otherwise the consented list is the filter for a non-null
`survey_id`, and the failures are `set(barcodes).difference(consented)`
explained by the classifier. -/
def check_consent (db : AGDB) (barcodes : Finset String) :
    Except String (Finset String × PyDict) :=
  if barcodes = ∅ then
    .error "Error running SQL query: IN () rejected by the server"
  else
    let consented := barcodes.filter (fun b => surveyIdNotNull db b = true)
    .ok (consented, explainPulldownFailures db (barcodes \ consented))

/-- C5 counterexample: at the empty input set — which the claim's "every
finite set" includes — `check_consent` raises from its unguarded
`barcode in %s` query instead of returning a pair. -/
theorem c5_check_consent_empty_counterexample :
    check_consent ⟨[], []⟩ ∅ =
      .error "Error running SQL query: IN () rejected by the server" := rfl

/-- C5 amended: for every NON-EMPTY finite set of barcode strings
(including strings unknown to the system), `check_consent` returns a pair
`(consented, failures)` such that consented is exactly the input barcodes
having a non-null survey/consent linkage, failures has exactly the
remaining input barcodes as keys (each with exactly one reason), and no
barcode appears in both — no overlaps, no omissions; at the empty set the
unguarded query makes the call raise instead. -/
theorem c5_check_consent_partition (db : AGDB) (barcodes : Finset String)
    (hne : barcodes ≠ ∅) :
    ∃ consented failures,
      check_consent db barcodes = .ok (consented, failures) ∧
      (∀ b, b ∈ consented ↔ b ∈ barcodes ∧ surveyIdNotNull db b = true) ∧
      failures.keys = barcodes \ consented ∧
      Disjoint consented failures.keys ∧
      consented ∪ failures.keys = barcodes ∧
      (∀ b ∈ failures.keys, ∃ r, failures.lookup b = some r) := by
  refine ⟨barcodes.filter (fun b => surveyIdNotNull db b = true),
    explainPulldownFailures db
      (barcodes \ barcodes.filter (fun b => surveyIdNotNull db b = true)),
    ?_, fun b => Finset.mem_filter, explain_keys db _, ?_, ?_, ?_⟩
  · unfold check_consent
    rw [if_neg hne]
  · rw [explain_keys db _]
    exact Finset.sdiff_disjoint.symm
  · rw [explain_keys db _]
    exact Finset.union_sdiff_of_subset (Finset.filter_subset _ _)
  · exact fun b hbk => ⟨_, PyDict.lookup_of_mem _ _ hbk⟩

/-- Store for the C5 witness, the spec's end-to-end scenario: `000027561`
has consent, `000001124` is registered with no logged sample date,
`0000000` is unknown. -/
def c5db : AGDB :=
  ⟨[("000027561", ⟨false, some "2015-01-01", none, some "s1"⟩),
    ("000001124", ⟨false, none, none, none⟩)], []⟩

/-- Witness for C5: the partition at the concrete non-empty set
`{000027561, 000001124, 0000000}`. -/
theorem c5_check_consent_partition_witness :
    ({"000027561", "000001124", "0000000"} : Finset String) ≠ ∅ ∧
    (∃ consented failures,
      check_consent c5db {"000027561", "000001124", "0000000"} =
        .ok (consented, failures) ∧
      (∀ b, b ∈ consented ↔
        b ∈ ({"000027561", "000001124", "0000000"} : Finset String) ∧
        surveyIdNotNull c5db b = true) ∧
      failures.keys = {"000027561", "000001124", "0000000"} \ consented ∧
      Disjoint consented failures.keys ∧
      consented ∪ failures.keys = {"000027561", "000001124", "0000000"} ∧
      (∀ b ∈ failures.keys, ∃ r, failures.lookup b = some r)) :=
  ⟨by decide,
   c5_check_consent_partition c5db {"000027561", "000001124", "0000000"} (by decide)⟩

end DataAccess

/-- Python exceptions surfaced by the embedded functions. -/
inductive PyError where
  | runtimeError (msg : String)
  | indexError
  | keyError
  | nameError
deriving DecidableEq

namespace RedcapInteraction

open DataAccess

/-- `pulldown` (redcap_interaction.py 16-71), abstracted to what the
failure computation observes.  `surveys` is the iteration order of the
survey-type dict, `raw s` the row-key set of `_batch_grab`'s export for
survey type `s` (the loop skips `s` when it is empty), `fmt s` the barcode
row-key set of the formatted table for `s`, and `blanks` the optional blank
names appended to the Human table.  The loop variable `df` leaks out of the
`for`; line 70 computes `failures = set(barcodes) - set(df.index)` from
that leaked value (the last formatted table) and line 71 passes it through
`db._explain_pulldown_failures`.  When no survey produced rows, `df` is
unbound and line 70 raises `NameError`. -/
def pulldown (db : AGDB) (surveys : List String)
    (raw fmt : String → Finset String) (blanks : Option (Finset String))
    (barcodes : Finset String) :
    Except PyError (List (String × Finset String) × PyDict) :=
  match surveys.foldl
    (fun (acc : List (String × Finset String) × Option (Finset String)) survey =>
      if raw survey = ∅ then acc
      else
        let df := fmt survey
        let df := if survey = "Human" then
            (match blanks with
             | some bs => df ∪ bs
             | none => df)
          else df
        (acc.1 ++ [(survey, df)], some df))
    ([], none) with
  | (formatted, some df) =>
      .ok (formatted, explainPulldownFailures db (barcodes \ df))
  | (_, none) => .error .nameError

/-- Concrete store for the C1 evaluation: both requested barcodes are
unknown to the store, so any barcode reaching the classifier is branded. -/
def c1db : AGDB := ⟨[], []⟩

/-- Formatted-table row keys for the C1 evaluation: the Human table holds
barcode `A`, every other table holds barcode `B`. -/
def c1fmt : String → Finset String := fun s => if s = "Human" then {"A"} else {"B"}

/-- Raw exports for the C1 evaluation: never empty, so no survey type is
skipped. -/
def c1raw : String → Finset String := fun _ => {"x"}

/-- C1 (evaluation at the failing input): with two formatted tables
`Human ↦ {A}` and `Animal ↦ {B}`, `pulldown` reports `A` as a failure even
though `A` is a row key of the Human table in the result: the failure set
is computed from the last table alone, not from the union of all formatted
tables (which would leave no failures here). -/
theorem c1_pulldown_failures_last_table_only :
    ((pulldown c1db ["Human", "Animal"] c1raw c1fmt none {"A", "B"}).toOption.map
      (fun pr => pr.1) = some [("Human", {"A"}), ("Animal", {"B"})]) ∧
    ((pulldown c1db ["Human", "Animal"] c1raw c1fmt none {"A", "B"}).toOption.map
      (fun pr => pr.2.keys) = some {"A"}) ∧
    ((pulldown c1db ["Human", "Animal"] c1raw c1fmt none {"A", "B"}).toOption.map
      (fun pr => ({"A", "B"} : Finset String) \
        pr.1.foldl (fun acc t => acc ∪ t.2) ∅) = some ∅) ∧
    ({"A"} : Finset String) ≠ ∅ := by
  refine ⟨?_, ?_, ?_, ?_⟩ <;> decide

end RedcapInteraction

namespace RedcapInteraction

/-- The `chunks` generator of `_batch_grab` (redcap_interaction.py 97-100):
`l[i:i+n] for i in range(0, len(l), n)`, written with `i = k*n` for the
`ceil(len(l)/n)` values of `k` (for `n = 0` Python's `range` raises; the
model returns `[]`, and every use fixes `n > 0`). -/
def chunks {α : Type} (l : List α) (n : ℕ) : List (List α) :=
  (List.range ((l.length + n - 1) / n)).map (fun k => (l.drop (k * n)).take n)

/-- ASCII upper-casing of a column name (`c.upper()` in the source,
written over the character list so that it evaluates by `rfl`). -/
def upperStr (s : String) : String := ⟨s.data.map Char.toUpper⟩

/-- A pandas DataFrame: named columns and positional cell rows; `none` is
NaN. -/
structure DF where
  cols : List String
  rows : List (List (Option String))
deriving DecidableEq

/-- `pandas.DataFrame.append`: returns a new frame with the argument's rows
concatenated below (the receiver is not modified).  Chunked exports of one
survey type share their instruments, hence their columns. -/
def DF.append (d e : DF) : DF := ⟨d.cols, d.rows ++ e.rows⟩

/-- A DataFrame after `set_index`: rows keyed by the former index column. -/
structure IndexedDF where
  cols : List String
  rows : List (Option String × List (Option String))
deriving DecidableEq

/-- `DataFrame.set_index(col)`: move column `col` to the row key; raises
`KeyError` when the column does not exist. -/
def DF.set_index (d : DF) (col : String) : Except PyError IndexedDF :=
  match d.cols.indexOf? col with
  | none => .error .keyError
  | some i => .ok ⟨d.cols.eraseIdx i, d.rows.map (fun r => (r.getD i none, r.eraseIdx i))⟩

/-- `DataFrame.fillna(v)`: replace every NaN cell value by `v` (the row key
is the index and is not touched). -/
def IndexedDF.fillna (d : IndexedDF) (v : String) : IndexedDF :=
  ⟨d.cols, d.rows.map (fun r => (r.1, r.2.map (fun c => some (c.getD v))))⟩

/-- The chunk loop of `_batch_grab` (redcap_interaction.py 102-114):
collect one exported frame per chunk into `response`, aborting at the
first `RedcapError` (modelled `.error ()`). -/
def collectChunks (exportFn : List String → Except Unit DF) :
    List (List String) → Except Unit (List DF)
  | [] => .ok []
  | c :: rest =>
    match exportFn c with
    | .error e => .error e
    | .ok df =>
      match collectChunks exportFn rest with
      | .error e => .error e
      | .ok dfs => .ok (df :: dfs)

/-- `_batch_grab` (redcap_interaction.py 74-123).  `exportFn` stands for
`ag_redcap.export_records` on one chunk of records; `.error ()` is a
`RedcapError`.  A `RedcapError` in any chunk aborts the whole call with
the `RuntimeError` naming the batch size.  Afterwards
`full_df = response[0]` (an `IndexError` on an empty response), and line
119 evaluates `full_df.append(chunk)` for the later chunks but discards
the result, so only the first chunk survives; column names are
upper-cased, `SURVEY_ID` becomes the index and NaN cells become
`"Unspecified"`. -/
def batch_grab (exportFn : List String → Except Unit DF) (records : List String)
    (batch_size : ℕ) : Except PyError IndexedDF :=
  match collectChunks exportFn (chunks records batch_size) with
  | .error _ =>
      .error (.runtimeError ("Batched export failed for batch_size=" ++ toString batch_size))
  | .ok [] => .error .indexError
  | .ok (full_df :: rest) =>
      let full_df := rest.foldl (fun fd chunk => let _unused := fd.append chunk; fd) full_df
      let full_df : DF := ⟨full_df.cols.map upperStr, full_df.rows⟩
      match full_df.set_index "SURVEY_ID" with
      | .error e => .error e
      | .ok idf => .ok (idf.fillna "Unspecified")

theorem collectChunks_error_of_exists (f : List String → Except Unit DF)
    (l : List (List String)) (h : ∃ c ∈ l, f c = .error ()) :
    collectChunks f l = .error () := by
  induction l with
  | nil =>
      obtain ⟨c, hc, -⟩ := h
      exact absurd hc (List.not_mem_nil c)
  | cons a t ih =>
      obtain ⟨c, hc, hfc⟩ := h
      cases hfa : f a with
      | error e => simp [collectChunks, hfa]
      | ok b =>
          rcases List.mem_cons.mp hc with rfl | hct
          · rw [hfa] at hfc
            simp at hfc
          · have ht := ih ⟨c, hct, hfc⟩
            simp [collectChunks, hfa, ht]

/-- C4: if the export of at least one chunk fails, the whole `_batch_grab`
fails with the `RuntimeError` naming the batch size, and no table built
from the successful chunks is returned. -/
theorem c4_chunk_failure_atomic (exportFn : List String → Except Unit DF)
    (records : List String) (batch_size : ℕ)
    (h : ∃ c ∈ chunks records batch_size, exportFn c = .error ()) :
    batch_grab exportFn records batch_size =
      .error (.runtimeError ("Batched export failed for batch_size=" ++ toString batch_size)) := by
  unfold batch_grab
  rw [collectChunks_error_of_exists exportFn _ h]

/-- One successfully exported chunk for the C4 witness. -/
def c4chunk : DF := ⟨["survey_id"], [[some "s1"]]⟩

/-- Export for the C4 witness: the chunk `["r2"]` fails, any other chunk
succeeds. -/
def c4export : List String → Except Unit DF :=
  fun c => if c = ["r2"] then .error () else .ok c4chunk

/-- Witness for C4: with two one-record chunks, failure of the second chunk
fails the whole batched export. -/
theorem c4_chunk_failure_atomic_witness :
    batch_grab c4export ["r1", "r2"] 1 =
      .error (.runtimeError ("Batched export failed for batch_size=" ++ toString 1)) :=
  c4_chunk_failure_atomic c4export ["r1", "r2"] 1 ⟨["r2"], by decide, by rfl⟩

/-- First exported chunk for the C3 evaluation (one row, one NaN cell). -/
def c3chunk1 : DF := ⟨["survey_id", "q1"], [[some "s1", none]]⟩

/-- Second exported chunk for the C3 evaluation (one distinct row). -/
def c3chunk2 : DF := ⟨["survey_id", "q1"], [[some "s2", some "a2"]]⟩

/-- Export for the C3 evaluation: chunk `["r1"]` yields `c3chunk1`, chunk
`["r2"]` yields `c3chunk2`; both succeed. -/
def c3export : List String → Except Unit DF :=
  fun c => if c = ["r1"] then .ok c3chunk1 else .ok c3chunk2

/-- C3 (evaluation at the failing input): a two-chunk export that fully
succeeds returns only the first chunk's row (column names upper-cased and
NaN filled with `"Unspecified"`), not the two rows of the concatenated
chunks: `full_df.append(chunk)` on line 119 discards its result. -/
theorem c3_batch_grab_first_chunk_only :
    batch_grab c3export ["r1", "r2"] 1 =
      .ok ⟨["Q1"], [(some "s1", [some "Unspecified"])]⟩ ∧
    (c3chunk1.rows ++ c3chunk2.rows).length = 2 := by
  exact ⟨by rfl, by rfl⟩

end RedcapInteraction

namespace RedcapInteraction

/-- CPython 2 cross-type comparison `(n : number) < (s : str)`: numeric
types order below every string (numbers sort before other types), so this
is constantly true.  The subset-flag cells are strings: `_batch_grab`
exports with `df_kwargs={'dtype': 'str'}` and fills NaN with
`'Unspecified'`. -/
def py2_num_lt_str (_n : ℚ) (_s : String) : Bool := true

/-- CPython 2 cross-type comparison `(s : str) < (n : number)`: constantly
false. -/
def py2_str_lt_num (_s : String) (_n : ℚ) : Bool := false

/-- CPython 2 cross-type comparison `(n : number) <= (s : str)`: constantly
true. -/
def py2_num_le_str (_n : ℚ) (_s : String) : Bool := true

/-- Lambda assigned to `SUBSET_AGE` (redcap_interaction.py 243-244):
`x != 'Unspecified' and 19 < x < 70` over the dtype-'str' cell; the
chained comparison is `19 < x and x < 70` under Python 2 ordering. -/
def subset_age_fn (x : String) : Bool :=
  decide (x ≠ "Unspecified") && (py2_num_lt_str 19 x && py2_str_lt_num x 70)

/-- Lambda assigned to `SUBSET_DIABETES` (245-246). -/
def subset_diabetes_fn (x : String) : Bool :=
  decide (x = "I do not have this condition")

/-- Lambda assigned to `SUBSET_IBD` (247-248). -/
def subset_ibd_fn (x : String) : Bool :=
  decide (x = "I do not have this condition")

/-- Lambda assigned to `SUBSET_ANTIBIOTIC_HISTORY` (249-250). -/
def subset_antibiotic_history_fn (x : String) : Bool :=
  decide (x = "I have not taken antibiotics in the past year.")

/-- Lambda assigned to `SUBSET_BMI` (251-252):
`x != 'Unspecified' and 18.5 <= x < 30` over the dtype-'str' cell, under
Python 2 ordering. -/
def subset_bmi_fn (x : String) : Bool :=
  decide (x ≠ "Unspecified") && (py2_num_le_str 18.5 x && py2_str_lt_num x 30)

/-- The cells of one raw row that the five subset flags read (all strings
after the dtype-'str' export and the `'Unspecified'` fill). -/
structure HumanRow where
  age_years : String
  bmi : String
  diabetes : String
  ibd : String
  antibiotic_history : String
deriving DecidableEq

/-- `SUBSET_HEALTHY` (redcap_interaction.py 253-256): `all(args)` over the
five subset flags of the row. -/
def subset_healthy_fn (r : HumanRow) : Bool :=
  subset_age_fn r.age_years && subset_diabetes_fn r.diabetes &&
  subset_ibd_fn r.ibd && subset_antibiotic_history_fn r.antibiotic_history &&
  subset_bmi_fn r.bmi

/-- C6 counterexample: the cell `"25"` (the export's rendering of age 25)
is specified and its value 25 lies in the claimed interval `[19,70)`, yet
the code's flag is false — `x < 70` compares a string against a number,
which Python 2 orders as constantly false. -/
theorem c6_subset_age_string_counterexample :
    subset_age_fn "25" = false ∧ ("25" : String) ≠ "Unspecified" ∧
    (19 : ℚ) ≤ 25 ∧ (25 : ℚ) < 70 := by
  refine ⟨by decide, by decide, by norm_num, by norm_num⟩

/-- C6 amended: the subset-flag cells are dtype-'str' strings and Python 2
orders every string above every number, so `SUBSET_AGE` and `SUBSET_BMI`
are false for every input value (specified or not); `SUBSET_HEALTHY`
equals the logical AND of the five subset flags (and is therefore also
always false). -/
theorem c6_subset_flags_amended :
    (∀ x : String, subset_age_fn x = false) ∧
    (∀ x : String, subset_bmi_fn x = false) ∧
    (∀ r : HumanRow, subset_healthy_fn r = true ↔
      (subset_age_fn r.age_years = true ∧ subset_diabetes_fn r.diabetes = true ∧
       subset_ibd_fn r.ibd = true ∧
       subset_antibiotic_history_fn r.antibiotic_history = true ∧
       subset_bmi_fn r.bmi = true)) ∧
    (∀ r : HumanRow, subset_healthy_fn r = false) := by
  refine ⟨?_, ?_, ?_, ?_⟩
  · intro x
    simp [subset_age_fn, py2_str_lt_num]
  · intro x
    simp [subset_bmi_fn, py2_str_lt_num]
  · intro r
    simp [subset_healthy_fn, Bool.and_eq_true, and_assoc]
  · intro r
    simp [subset_healthy_fn, subset_age_fn, py2_str_lt_num]

/-- The external-survey loop of `_format_human` (redcap_interaction.py
265-269): for each named survey the store is asked for its answers and
`data.join(ext, how='left')` is evaluated — but its result is never
assigned.  The pandas left join and `db.get_external_survey` are the
`join` and `get_external_survey` parameters. -/
def add_external_surveys {T E : Type} (join : T → E → T)
    (get_external_survey : String → E) (data : T)
    (external : Option (List String)) : T :=
  match external with
  | none => data
  | some surveys =>
      surveys.foldl
        (fun d survey =>
          let _joined := join d (get_external_survey survey)
          d)
        data

/-- C9 (evaluation of the defect): supplying external survey names leaves
the frame exactly as in the no-external case — the joined columns never
appear, because the join result on line 269 is discarded. -/
theorem c9_external_join_discarded {T E : Type} (join : T → E → T)
    (get_external_survey : String → E) (data : T) (surveys : List String) :
    add_external_surveys join get_external_survey data (some surveys) =
      add_external_surveys join get_external_survey data none := by
  show surveys.foldl _ data = data
  induction surveys generalizing data with
  | nil => rfl
  | cons a t ih => exact ih data

/-- `_format_basic` (redcap_interaction.py 363-398), tracking row keys.
`data` is the raw frame keyed by survey id (its cells abstracted to `α`;
the invariant-column assignments of lines 379-392 do not touch keys) and
`backbone` the `(SURVEY_ID, BARCODE)` frame indexed on survey id.
`combined = backbone.join(data, how='inner')` keeps the backbone rows
whose survey id has raw data, still keyed by survey id with the `BARCODE`
value and the raw cells.  Line 396 evaluates `combined.set_index('BARCODE')`
but discards the result (no `inplace=True`, unlike the Human and Animal
formatters), and line 397 assigns `ANONYMIZED_NAME` on `data` rather than
on `combined`, so the frame returned is still keyed by survey id. -/
def format_basic {α : Type} (data : List (String × α))
    (backbone : List (String × String)) : List (String × (String × α)) :=
  let combined := backbone.filterMap
    (fun sb => (data.lookup sb.1).map (fun a => (sb.1, (sb.2, a))))
  let _reindexed := combined.map (fun r => (r.2.1, r.2.2))
  combined

/-- C8 (evaluation at the failing input): for the other/basic survey type,
the returned table is keyed by the survey id (`S1`), not by the barcode
(`B1`) the backbone maps it to. -/
theorem c8_basic_table_keyed_by_survey_id :
    format_basic [("S1", 0)] [("S1", "B1")] = [("S1", ("B1", 0))] ∧
    (format_basic [("S1", 0)] [("S1", "B1")]).map Prod.fst = ["S1"] ∧
    ("S1" : String) ≠ "B1" := by
  refine ⟨by rfl, by rfl, by decide⟩

/-- The region-column assignments of `_geolocate` (redcap_interaction.py
177-183), iterated once per row of the frame.  `regions_by_state` is the
constants table (not under src; each entry carries both a `Census_1` and an
`Economic` field), `stateOf i` the value `geolocated[index]['STATE']`
computed for row `i` by lines 131-176, and the accumulator the pair of
whole `CENSUS_REGION` and `ECONOMIC_REGION` columns — whole, because
`data['CENSUS_REGION'] = ...` assigns the entire column; a missing state
entry raises `KeyError` before either assignment and the handler assigns
`'Unspecified'` to both columns. -/
def geolocate_region_cols {ι : Type}
    (regions_by_state : String → Option (String × String))
    (stateOf : ι → String) (rows : List ι)
    (census economic : ι → String) : (ι → String) × (ι → String) :=
  rows.foldl
    (fun _ce idx =>
      match regions_by_state (stateOf idx) with
      | some p => (fun _ => p.1, fun _ => p.2)
      | none => (fun _ => "Unspecified", fun _ => "Unspecified"))
    (census, economic)

theorem geolocate_region_cols_last {ι : Type}
    (regions_by_state : String → Option (String × String))
    (stateOf : ι → String) (rows : List ι)
    (census economic : ι → String) (h : rows ≠ []) :
    geolocate_region_cols regions_by_state stateOf rows census economic =
      (match regions_by_state (stateOf (rows.getLast h)) with
       | some p => (fun _ => p.1, fun _ => p.2)
       | none => (fun _ => "Unspecified", fun _ => "Unspecified")) := by
  induction rows generalizing census economic with
  | nil => exact absurd rfl h
  | cons a t ih =>
      cases t with
      | nil => rfl
      | cons b t2 =>
          have h2 : b :: t2 ≠ [] := List.cons_ne_nil b t2
          have hstep : geolocate_region_cols regions_by_state stateOf (a :: b :: t2)
              census economic =
            geolocate_region_cols regions_by_state stateOf (b :: t2)
              (match regions_by_state (stateOf a) with
               | some p => (fun _ => p.1)
               | none => (fun _ => "Unspecified"))
              (match regions_by_state (stateOf a) with
               | some p => (fun _ => p.2)
               | none => (fun _ => "Unspecified")) := by
            simp only [geolocate_region_cols, List.foldl_cons]
          rw [List.getLast_cons h2, hstep]
          exact ih _ _ h2

/-- C10: the `CENSUS_REGION` and `ECONOMIC_REGION` assignments inside the
per-row loop of `_geolocate` target the whole column, so every row of the
output carries the same pair of region values, namely those derived from
the state of the final iterated row (`'Unspecified'` when that state has
no region entry). -/
theorem c10_regions_from_last_row {ι : Type}
    (regions_by_state : String → Option (String × String))
    (stateOf : ι → String) (rows : List ι)
    (census economic : ι → String) (h : rows ≠ []) (i j : ι) :
    ((geolocate_region_cols regions_by_state stateOf rows census economic).1 i =
      (geolocate_region_cols regions_by_state stateOf rows census economic).1 j) ∧
    ((geolocate_region_cols regions_by_state stateOf rows census economic).2 i =
      (geolocate_region_cols regions_by_state stateOf rows census economic).2 j) ∧
    ((geolocate_region_cols regions_by_state stateOf rows census economic).1 i =
      match regions_by_state (stateOf (rows.getLast h)) with
      | some p => p.1
      | none => "Unspecified") ∧
    ((geolocate_region_cols regions_by_state stateOf rows census economic).2 i =
      match regions_by_state (stateOf (rows.getLast h)) with
      | some p => p.2
      | none => "Unspecified") := by
  rw [geolocate_region_cols_last regions_by_state stateOf rows census economic h]
  cases regions_by_state (stateOf (rows.getLast h)) <;> exact ⟨rfl, rfl, rfl, rfl⟩

/-- Region table for the C10 witness: only `CA` has an entry. -/
def c10regions : String → Option (String × String) :=
  fun s => if s = "CA" then some ("West", "Far West") else none

/-- Per-row states for the C10 witness: row 0 resolves to `CA`, any other
row to the unknown state `XX`. -/
def c10stateOf : ℕ → String := fun i => if i = 0 then "CA" else "XX"

/-- Witness for C10: over rows `[0, 1]`, both rows end with
`CENSUS_REGION = 'Unspecified'` — the value derived from the last row's
unknown state — even though row 0's own state has a region entry. -/
theorem c10_regions_from_last_row_witness :
    ([0, 1] : List ℕ) ≠ [] ∧
    (geolocate_region_cols c10regions c10stateOf [0, 1]
      (fun _ => "") (fun _ => "")).1 0 = "Unspecified" ∧
    (geolocate_region_cols c10regions c10stateOf [0, 1]
      (fun _ => "") (fun _ => "")).1 1 = "Unspecified" := by
  have h4 := c10_regions_from_last_row c10regions c10stateOf [0, 1]
    (fun _ => "") (fun _ => "") (by decide) 0 1
  exact ⟨by decide, h4.2.2.1.trans (by rfl), (h4.1.symm).trans (h4.2.2.1.trans (by rfl))⟩

end RedcapInteraction

namespace DataAccess

/-- One `ag_login` row, restricted to the columns `addGeocodingInfo` reads
and writes. -/
structure Login where
  city : String
  state : String
  zip : String
  country : String
  ag_login_id : String
  latitude : Option ℚ
  longitude : Option ℚ
  elevation : Option ℚ
  cannot_geocode : Option String
deriving DecidableEq

/-- Outcome of one `geocode(address)` call (geocoder.py is not under src):
a location with coordinates, the `GoogleAPILimitExceeded` exception, or
any other exception. -/
inductive GeoResult where
  | found (lat long elev : ℚ)
  | apiLimit
  | err
deriving DecidableEq

/-- One row of `sql_args`: the five parameters of the per-login UPDATE
(data_access.py 1115-1124). -/
structure UpdateArg where
  latitude : Option ℚ
  longitude : Option ℚ
  elevation : Option ℚ
  cannot_geocode : String
  ag_login_id : String
deriving DecidableEq

/-- `'{0} {1} {2} {3}'.format(city, state, zipcode, country)`
(data_access.py 1111). -/
def loginAddress (l : Login) : String :=
  l.city ++ " " ++ l.state ++ " " ++ l.zip ++ " " ++ l.country

/-- The geocoding loop of `addGeocodingInfo` (data_access.py 1105-1124):
process the selected logins in order, breaking once `row_counter` exceeds
`limit` or at the first `GoogleAPILimitExceeded`; a successful geocode
queues an update with the coordinates and the empty success marker, any
other error queues the permanent `'y'` marker. -/
def geocodeLoop (g : String → GeoResult) (limit : Option ℕ) :
    List Login → ℕ → List UpdateArg
  | [], _ => []
  | l :: rest, row_counter =>
      let row_counter := row_counter + 1
      if (match limit with
          | some n => decide (n < row_counter)
          | none => false) = true then []
      else
        match g (loginAddress l) with
        | .found lat long elev =>
            ⟨some lat, some long, some elev, "", l.ag_login_id⟩ ::
              geocodeLoop g limit rest row_counter
        | .apiLimit => []
        | .err =>
            ⟨none, none, none, "y", l.ag_login_id⟩ ::
              geocodeLoop g limit rest row_counter

/-- `executemany` of the final UPDATE (data_access.py 1126-1132): apply
each queued parameter row to the login with the matching `ag_login_id`. -/
def applyGeocodeUpdates (db : List Login) (args : List UpdateArg) : List Login :=
  args.foldl
    (fun cur a => cur.map (fun l =>
      if l.ag_login_id = a.ag_login_id then
        { l with latitude := a.latitude, longitude := a.longitude,
                 elevation := a.elevation, cannot_geocode := some a.cannot_geocode }
      else l))
    db

/-- `addGeocodingInfo` (data_access.py 1072-1132).  With `retry=True` the
source runs `self._con.execute(sql)` on an UPDATE containing four `%s`
placeholders but passes no `sql_args`; psycopg2 then sends the raw `%s`
text to the server, which rejects it, and `SQLHandler._sql_executor`
re-raises a `ValueError` — so the call fails before any clearing or any
geocoding (modelled as the error branch).  With `retry=False` it selects
the logins with `elevation` NULL and `cannot_geocode` NULL, runs the
geocode loop over them, and applies the queued updates. -/
def addGeocodingInfo (g : String → GeoResult) (db : List Login)
    (limit : Option ℕ) (retry : Bool) : Except String (List Login) :=
  if retry then
    .error "Error running SQL query: UPDATE executed with unbound placeholders"
  else
    let logins := db.filter (fun l => l.elevation.isNone && l.cannot_geocode.isNone)
    .ok (applyGeocodeUpdates db (geocodeLoop g limit logins 0))

/-- Supporting fact for C7: when the resolver signals rate/quota exhaustion
for the head of the remaining selection, the loop stops and produces no
update for any login after that point, so those records stay untouched. -/
theorem geocodeLoop_stops_at_apiLimit (g : String → GeoResult)
    (limit : Option ℕ) (pre : List Login) (l : Login) (post : List Login)
    (counter : ℕ) (hl : g (loginAddress l) = .apiLimit) :
    geocodeLoop g limit (pre ++ l :: post) counter =
      geocodeLoop g limit (pre ++ [l]) counter := by
  induction pre generalizing counter with
  | nil =>
      simp only [List.nil_append, geocodeLoop, hl]
  | cons p pre2 ih =>
      simp only [List.cons_append, geocodeLoop]
      split
      · rfl
      · cases g (loginAddress p) <;> simp [ih]

/-- Prior negative login for the C7 evaluation. -/
def c7neg : Login := ⟨"", "", "", "", "id1", none, none, none, some "y"⟩

/-- Resolver for the C7 evaluation: every address geocodes successfully. -/
def c7geo : String → GeoResult := fun _ => .found 1 2 3

/-- C7 (evaluation at the failing input): with a login previously marked
`cannot_geocode='y'`, a run with `retry=True` raises (the clearing UPDATE
is executed with its four placeholders unbound) instead of clearing the
negative markers and resolving; with `retry=False` the marked login is not
selected and stays untouched, as the claim requires. -/
theorem c7_retry_clearing_raises :
    addGeocodingInfo c7geo [c7neg] none true =
      .error "Error running SQL query: UPDATE executed with unbound placeholders" ∧
    c7neg.cannot_geocode = some "y" ∧
    addGeocodingInfo c7geo [c7neg] none false = .ok [c7neg] := by
  refine ⟨rfl, rfl, rfl⟩

end DataAccess
